import Mathlib

/-! Panic-recovering middleware of go-problemdetails-recoverer.

A shallow embedding of `recoverer.go`: the wrapping handler built by `New` and
`NewWithConfig`, together with the parts of the Go runtime and of `net/http` it talks to
(the response writer, the standard logger, the panic value returned by `recover()`).

Conventions of the embedding:

* a handler is a state transformer on `World` that also says how it ended: `none` when it
  returned, `some v` when it unwound with panic value `v` (what `recover()` yields; under
  Go 1.21 and later this is never nil while a panic is in flight);
* byte slices and strings are both `String`;
* the JSON and XML encoders and the stack dump of `runtime/debug` are library code outside
  the repository and are carried in `Env`.
-/

namespace Recoverer

/-! ## Constants and configuration (recoverer.go, lines 14-46) -/

/-- The Go type `ResponseFormat` is a `uint8`; every value other than `XML` selects JSON. -/
abbrev ResponseFormat := Nat

/-- First value of the `iota` block. -/
def JSON : ResponseFormat := 0

/-- Second value of the `iota` block. -/
def XML : ResponseFormat := 1

def contentTypeHeaderName : String := "Content-Type"

def contentTypeProblemXML : String := "application/problem+xml"

def contentTypeProblemJSON : String := "application/problem+json"

def internalServerErrorType : String := "https://www.rfc-editor.org/rfc/rfc7231#section-6.6.1"

/-- The constant `http.StatusInternalServerError`. -/
def StatusInternalServerError : Nat := 500

/-- The constant `http.StatusOK`. -/
def StatusOK : Nat := 200

/-- The table `http.StatusText`, restricted to the codes this development mentions; unknown
codes give the empty string, as in Go. -/
def StatusText (code : Nat) : String :=
  if code = 200 then "OK"
  else if code = 400 then "Bad Request"
  else if code = 404 then "Not Found"
  else if code = 500 then "Internal Server Error"
  else ""

/-! ## Values that travel through `panic` and `recover` -/

/-- A Go value of interface type `error`. `abortHandler` is the package-level value
`http.ErrAbortHandler`; `value` is any other error value, with its identity and the text
its `Error()` method returns; `errorf` is a value freshly made by `fmt.Errorf`. -/
inductive GoError where
  | abortHandler
  | value (ident : Nat) (message : String)
  | errorf (message : String)
  deriving DecidableEq

/-- The method `Error()`. -/
def GoError.Error : GoError → String
  | .abortHandler => "net/http: abort Handler"
  | .value _ message => message
  | .errorf message => message

/-- The sentinel `http.ErrAbortHandler`. -/
def ErrAbortHandler : GoError := GoError.abortHandler

/-- A non-nil Go value of type `any`, as `recover()` returns it: an error value, a string,
or any other value, which is represented by the text the verb `%v` prints for it. -/
inductive PanicValue where
  | error (e : GoError)
  | str (s : String)
  | other (rendering : String)
  deriving DecidableEq

/-- The text `fmt` prints for a value under the verb `%v`. -/
def formatV : PanicValue → String
  | .error e => e.Error
  | .str s => s
  | .other rendering => rendering

/-- The call `fmt.Errorf("%v", r)`: a new error whose message is the `%v` text of `r`. -/
def Errorf (r : PanicValue) : GoError := GoError.errorf (formatV r)

/-- The type assertion `r.(error)` with its `ok` flag folded into an `Option`. -/
def asError : PanicValue → Option GoError
  | .error e => some e
  | _ => none

/-! ## The response writer

`http.ResponseWriter` is an interface of `net/http`; the model follows
`httptest.ResponseRecorder`, the implementation the tests of the repository use, which
obeys the documented contract of the interface: the first `WriteHeader` commits status and
headers, later `WriteHeader` calls and later header changes have no effect on what was
committed, and `Write` commits with status 200 when nothing was committed before.
Content sniffing, which `Write` performs only on an uncommitted writer without a
`Content-Type`, is left out: the middleware always calls `WriteHeader` before `Write`. -/

/-- The type `http.Header`, a map from (canonical) header names to their values. -/
structure Header where
  entries : List (String × List String)
  deriving DecidableEq

/-- The method `Header.Set`: the key now maps to the single given value. -/
def Header.Set (h : Header) (key value : String) : Header :=
  ⟨(key, [value]) :: h.entries.filter (fun p => p.1 != key)⟩

/-- The method `Header.Get`: first value stored under the key, or the empty string. -/
def Header.Get (h : Header) (key : String) : String :=
  match h.entries.find? (fun p => p.1 == key) with
  | some (_, v :: _) => v
  | _ => ""

/-- State of a response writer (fields of `httptest.ResponseRecorder`). -/
structure ResponseWriter where
  Code : Nat
  HeaderMap : Header
  Body : String
  wroteHeader : Bool
  snapHeader : Option Header
  deriving DecidableEq

/-- The constructor `httptest.NewRecorder`. -/
def NewRecorder : ResponseWriter :=
  { Code := 200, HeaderMap := ⟨[]⟩, Body := "", wroteHeader := false, snapHeader := none }

/-- The statement `w.Header().Set(key, value)`: the live header map is updated. -/
def ResponseWriter.HeaderSet (rw : ResponseWriter) (key value : String) : ResponseWriter :=
  { rw with HeaderMap := rw.HeaderMap.Set key value }

/-- The method `WriteHeader`: ignored once the header was written, otherwise records the
code and snapshots the header map. -/
def ResponseWriter.WriteHeader (rw : ResponseWriter) (code : Nat) : ResponseWriter :=
  if rw.wroteHeader then rw
  else { rw with Code := code, wroteHeader := true, snapHeader := some rw.HeaderMap }

/-- The method `Write`: commits with status 200 if nothing was committed, then appends. -/
def ResponseWriter.Write (rw : ResponseWriter) (buf : String) : ResponseWriter :=
  let rw1 := if rw.wroteHeader then rw else rw.WriteHeader StatusOK
  { rw1 with Body := rw1.Body ++ buf }

/-- What a client receives. -/
structure Response where
  StatusCode : Nat
  Header : Header
  Body : String
  deriving DecidableEq

/-- The method `Result`: status, committed headers (the live map when nothing was
committed) and body. -/
def ResponseWriter.Result (rw : ResponseWriter) : Response :=
  { StatusCode := rw.Code
    Header := match rw.snapHeader with
      | some h => h
      | none => rw.HeaderMap
    Body := rw.Body }

/-- The value of the `Content-Type` header of the response a client receives. -/
def ResponseWriter.contentType (rw : ResponseWriter) : String :=
  rw.Result.Header.Get contentTypeHeaderName

/-- Nothing was sent yet: neither a status code nor body bytes. -/
def ResponseWriter.unwritten (rw : ResponseWriter) : Prop :=
  rw.wroteHeader = false ∧ rw.Body = ""

instance (rw : ResponseWriter) : Decidable rw.unwritten := by
  unfold ResponseWriter.unwritten; infer_instance

/-! ## Problem details, encoders and the runtime -/

/-- Modelled from the spec: the payload type of the package `go-problemdetails`, which is
not part of this repository; the spec describes it as a structured object made from
(type, title, status, detail, instance). -/
structure ProblemDetails where
  type : String
  title : String
  status : Nat
  detail : String
  inst : String
  deriving DecidableEq

/-- Modelled from the spec: the constructor `problemdetails.New`, which is not part of this
repository; it takes (type, title, status, detail, instance) and produces the payload. -/
def problemdetails.New (type title : String) (status : Nat) (detail inst : String) :
    ProblemDetails :=
  { type := type, title := title, status := status, detail := detail, inst := inst }

/-- Library code the middleware calls and the repository does not contain: the bytes
`json.NewEncoder(w).Encode(pd)` and `xml.NewEncoder(w).Encode(pd)` write for a payload, and
the goroutine number and frame listing that `debug.Stack()` reports. -/
structure Env where
  jsonEncode : ProblemDetails → String
  xmlEncode : ProblemDetails → String
  goid : Nat
  frames : String

/-- The call `debug.Stack()`: the dump always opens with the goroutine header line. -/
def debugStack (env : Env) : String :=
  "goroutine " ++ toString env.goid ++ " [running]:\n" ++ env.frames

/-! ## Handlers -/

/-- The type `*http.Request`; the middleware only passes it on. -/
structure Request where
  method : String
  url : String
  deriving DecidableEq

/-- Everything a request can change: the response writer handed to `ServeHTTP`, the lines
printed through the standard logger (each entry is the message `log.Printf` formatted, its
final newline included), and the arguments of every call of the configured `LogFunc`. -/
structure World where
  w : ResponseWriter
  stdlog : List String
  logFuncCalls : List (GoError × String)
  deriving DecidableEq

/-- How a call ended: `none` for a normal return, `some v` for a panic with value `v`. -/
abbrev Outcome := Option PanicValue

/-- The interface `http.Handler`: `ServeHTTP(w, r)` as a transformer of the world. -/
abbrev Handler := Request → World → World × Outcome

/-- A function of Go type `func(err error, stack []byte)`. It receives neither the writer
nor the request; its body may print through the standard logger and may panic. -/
abbrev LogCallback := GoError → String → List String → List String × Outcome

/-- The struct `RecovererConfig`. A nil `LogFunc` is `none`. -/
structure RecovererConfig where
  LogFunc : Option LogCallback
  LogAllStack : Bool
  ResponseFormat : ResponseFormat
  ProblemDetailsType : String

/-- The package variable `defaultRecoverConfig`. -/
def defaultRecoverConfig : RecovererConfig :=
  { LogFunc := none
    LogAllStack := true
    ResponseFormat := JSON
    ProblemDetailsType := internalServerErrorType }

/-- The function `NewWithConfig`. The deferred closure runs after `next.ServeHTTP(w, r)`;
`recover()` is nil exactly when the handler returned. Each encoder hands its bytes to
`w.Write`, and the source drops the error `Encode` returns. A call of `LogFunc` is entered
in `logFuncCalls` and its body then acts on the standard log; a panic of the body leaves
the deferred closure and reaches the caller. -/
def NewWithConfig (env : Env) (next : Handler) (config : RecovererConfig) : Handler :=
  fun r s0 =>
    match next r s0 with
    | (s1, none) => (s1, none)
    | (s1, some rv) =>
      if rv = PanicValue.error ErrAbortHandler then
        (s1, some rv)
      else
        let err : GoError :=
          match asError rv with
          | some e => e
          | none => Errorf rv
        let pd := problemdetails.New config.ProblemDetailsType
          (StatusText StatusInternalServerError) StatusInternalServerError "" ""
        let w1 : ResponseWriter :=
          if config.ResponseFormat = XML then
            ((s1.w.HeaderSet contentTypeHeaderName contentTypeProblemXML).WriteHeader
              StatusInternalServerError).Write (env.xmlEncode pd)
          else
            ((s1.w.HeaderSet contentTypeHeaderName contentTypeProblemJSON).WriteHeader
              StatusInternalServerError).Write (env.jsonEncode pd)
        let stack : String := if config.LogAllStack then debugStack env else ""
        match config.LogFunc with
        | some logFunc =>
          let res := logFunc err stack s1.stdlog
          ({ w := w1, stdlog := res.1, logFuncCalls := s1.logFuncCalls ++ [(err, stack)] },
            res.2)
        | none =>
          ({ w := w1
             stdlog := s1.stdlog ++ ["[PANIC]: " ++ err.Error ++ " " ++ stack ++ "\n"]
             logFuncCalls := s1.logFuncCalls }, none)

/-- The function `New`. -/
def New (env : Env) (next : Handler) : Handler :=
  NewWithConfig env next defaultRecoverConfig

/-! ## Sample inputs

Handlers of `recoverer_test.go` and small concrete collaborators, on which the model is
evaluated at explicit inputs. -/

/-- A JSON encoder for payloads whose strings need no escaping, laid out as the example
body of the spec: one object with the five fields in order and a final newline. -/
def sampleJSON (pd : ProblemDetails) : String :=
  "\x7b\"type\":\"" ++ pd.type ++ "\",\"title\":\"" ++ pd.title ++ "\",\"status\":" ++
    toString pd.status ++ ",\"detail\":\"" ++ pd.detail ++ "\",\"instance\":\"" ++
    pd.inst ++ "\"\x7d\n"

/-- An XML encoder for payloads whose strings need no escaping: one element per field. -/
def sampleXML (pd : ProblemDetails) : String :=
  "<problem xmlns=\"urn:ietf:rfc:7807\"><type>" ++ pd.type ++ "</type><title>" ++
    pd.title ++ "</title><status>" ++ toString pd.status ++ "</status><detail>" ++
    pd.detail ++ "</detail><instance>" ++ pd.inst ++ "</instance></problem>"

/-- A concrete environment: the two sample encoders and a one-frame stack of goroutine 7. -/
def sampleEnv : Env :=
  { jsonEncode := sampleJSON, xmlEncode := sampleXML, goid := 7,
    frames := "main.panicingHandler(...)\n" }

/-- The test handler `panicingHandler`: `panic("lorem ipsum")`. -/
def panicingHandler : Handler :=
  fun _ s => (s, some (PanicValue.str "lorem ipsum"))

/-- The test handler `panicingAbortHandler`: `panic(http.ErrAbortHandler)`. -/
def panicingAbortHandler : Handler :=
  fun _ s => (s, some (PanicValue.error ErrAbortHandler))

/-- A handler that panics with an error value: `panic(errors.New("boom"))`. -/
def panicingErrorHandler : Handler :=
  fun _ s => (s, some (PanicValue.error (GoError.value 1 "boom")))

/-- A handler that answers and returns: sets a content type, writes status 200 and a body. -/
def helloHandler : Handler :=
  fun _ s =>
    ({ s with w := ((s.w.HeaderSet "Content-Type" "text/plain").WriteHeader 200).Write "hello" },
      none)

/-- A handler that commits a response and then panics: sets a content type, writes status
200 and the bytes `half`, then `panic("lorem ipsum")`. -/
def committedHandler : Handler :=
  fun _ s =>
    ({ s with w := ((s.w.HeaderSet "Content-Type" "text/plain").WriteHeader 200).Write "half" },
      some (PanicValue.str "lorem ipsum"))

/-- The callback of the test case `logFunc_no_stack`: `log.Printf("[LogFunc] test %v", err)`;
the logger ends the entry with a newline. -/
def testLogFunc : LogCallback :=
  fun err _ l => (l ++ ["[LogFunc] test " ++ err.Error ++ "\n"], none)

/-- The request of the tests: `GET /`. -/
def sampleRequest : Request := { method := "GET", url := "/" }

/-- A second request. -/
def otherRequest : Request := { method := "POST", url := "/items" }

/-- The world at the start of a request: a new recorder and empty logs. -/
def freshWorld : World := { w := NewRecorder, stdlog := [], logFuncCalls := [] }

/-- The zero value of the struct `RecovererConfig`. -/
def zeroConfig : RecovererConfig :=
  { LogFunc := none, LogAllStack := false, ResponseFormat := 0, ProblemDetailsType := "" }

/-! ## Lemmas on the collaborators -/

theorem Header.Get_Set (h : Header) (key value : String) :
    (h.Set key value).Get key = value := by
  simp [Header.Set, Header.Get, List.find?]

theorem debugStack_ne_empty (env : Env) : debugStack env ≠ "" := by
  intro h
  have hl := congrArg String.length h
  simp [debugStack, String.length_append] at hl
  exact absurd hl.1.1.1 (by decide)

/-- On a writer nothing was sent through, the three calls of the middleware commit status
500 with the given content type and leave exactly the given bytes as body. -/
theorem write_on_unwritten (rw : ResponseWriter) (ct body : String) (h : rw.unwritten) :
    ((rw.HeaderSet contentTypeHeaderName ct).WriteHeader StatusInternalServerError).Write body
      = { Code := 500, HeaderMap := rw.HeaderMap.Set contentTypeHeaderName ct, Body := body,
          wroteHeader := true,
          snapHeader := some (rw.HeaderMap.Set contentTypeHeaderName ct) } := by
  obtain ⟨h1, h2⟩ := h
  simp [ResponseWriter.HeaderSet, ResponseWriter.WriteHeader, ResponseWriter.Write, h1, h2,
    StatusInternalServerError]

/-- On a writer whose header was already written, the three calls of the middleware only
change the live header map and append to the body. -/
theorem write_on_committed (rw : ResponseWriter) (ct body : String)
    (h : rw.wroteHeader = true) :
    ((rw.HeaderSet contentTypeHeaderName ct).WriteHeader StatusInternalServerError).Write body
      = { rw with HeaderMap := rw.HeaderMap.Set contentTypeHeaderName ct,
                  Body := rw.Body ++ body } := by
  simp [ResponseWriter.HeaderSet, ResponseWriter.WriteHeader, ResponseWriter.Write, h]

/-- The writer after a recovered panic: the header, the status and the encoded payload are
sent through the writer the inner handler left. -/
theorem NewWithConfig_writer (env : Env) (config : RecovererConfig) (next : Handler)
    (r : Request) (s0 s1 : World) (v : PanicValue)
    (hnext : next r s0 = (s1, some v))
    (hv : v ≠ PanicValue.error ErrAbortHandler) :
    (NewWithConfig env next config r s0).1.w =
      if config.ResponseFormat = XML then
        ((s1.w.HeaderSet contentTypeHeaderName contentTypeProblemXML).WriteHeader
          StatusInternalServerError).Write (env.xmlEncode (problemdetails.New
            config.ProblemDetailsType (StatusText StatusInternalServerError)
            StatusInternalServerError "" ""))
      else
        ((s1.w.HeaderSet contentTypeHeaderName contentTypeProblemJSON).WriteHeader
          StatusInternalServerError).Write (env.jsonEncode (problemdetails.New
            config.ProblemDetailsType (StatusText StatusInternalServerError)
            StatusInternalServerError "" "")) := by
  simp only [NewWithConfig, hnext, if_neg hv]
  cases config.LogFunc <;> rfl

/-- The message is a contiguous part of the default log entry. -/
theorem message_infix (m st : String) :
    m.data <:+: ("[PANIC]: " ++ m ++ " " ++ st ++ "\n").data :=
  ⟨"[PANIC]: ".data, (" " ++ st ++ "\n").data, by simp [String.data_append]⟩

/-! ## The claims -/

/-- C1: when the inner handler panics with a value other than `http.ErrAbortHandler` and
has sent nothing through the response writer, the handler built by `NewWithConfig` leaves
the response with status 500, with `Content-Type` `application/problem+xml` for the XML
format and `application/problem+json` for JSON (and for every format that is not XML), and
with a body that is exactly the XML (resp. JSON) encoding of the payload with
type = `config.ProblemDetailsType`, title = `Internal Server Error`, status = 500 and empty
detail and instance. -/
theorem NewWithConfig_problem_response (env : Env) (config : RecovererConfig)
    (next : Handler) (r : Request) (s0 s1 : World) (v : PanicValue)
    (hnext : next r s0 = (s1, some v))
    (hv : v ≠ PanicValue.error ErrAbortHandler)
    (hw : s1.w.unwritten) :
    (NewWithConfig env next config r s0).1.w.Result.StatusCode = 500 ∧
    (config.ResponseFormat = XML →
      (NewWithConfig env next config r s0).1.w.contentType = "application/problem+xml" ∧
      (NewWithConfig env next config r s0).1.w.Result.Body =
        env.xmlEncode { type := config.ProblemDetailsType, title := "Internal Server Error",
                        status := 500, detail := "", inst := "" }) ∧
    (config.ResponseFormat = JSON →
      (NewWithConfig env next config r s0).1.w.contentType = "application/problem+json" ∧
      (NewWithConfig env next config r s0).1.w.Result.Body =
        env.jsonEncode { type := config.ProblemDetailsType, title := "Internal Server Error",
                         status := 500, detail := "", inst := "" }) ∧
    (config.ResponseFormat ≠ XML →
      (NewWithConfig env next config r s0).1.w.contentType = "application/problem+json" ∧
      (NewWithConfig env next config r s0).1.w.Result.Body =
        env.jsonEncode { type := config.ProblemDetailsType, title := "Internal Server Error",
                         status := 500, detail := "", inst := "" }) := by
  have hjx : JSON ≠ XML := by decide
  rw [NewWithConfig_writer env config next r s0 s1 v hnext hv]
  by_cases hf : config.ResponseFormat = XML
  · rw [if_pos hf, write_on_unwritten _ _ _ hw]
    refine ⟨rfl, fun _ => ⟨?_, ?_⟩, fun h => absurd (h ▸ hf) hjx, fun h => absurd hf h⟩
    · simp [ResponseWriter.contentType, ResponseWriter.Result, Header.Get_Set,
        contentTypeProblemXML]
    · simp [ResponseWriter.Result, problemdetails.New, StatusText, StatusInternalServerError]
  · rw [if_neg hf, write_on_unwritten _ _ _ hw]
    have hct : (ResponseWriter.mk 500 (s1.w.HeaderMap.Set contentTypeHeaderName
        contentTypeProblemJSON) (env.jsonEncode (problemdetails.New config.ProblemDetailsType
          (StatusText StatusInternalServerError) StatusInternalServerError "" "")) true
        (some (s1.w.HeaderMap.Set contentTypeHeaderName contentTypeProblemJSON))).contentType
        = "application/problem+json" := by
      simp [ResponseWriter.contentType, ResponseWriter.Result, Header.Get_Set,
        contentTypeProblemJSON]
    have hbody : (ResponseWriter.mk 500 (s1.w.HeaderMap.Set contentTypeHeaderName
        contentTypeProblemJSON) (env.jsonEncode (problemdetails.New config.ProblemDetailsType
          (StatusText StatusInternalServerError) StatusInternalServerError "" "")) true
        (some (s1.w.HeaderMap.Set contentTypeHeaderName contentTypeProblemJSON))).Result.Body
        = env.jsonEncode { type := config.ProblemDetailsType, title := "Internal Server Error",
                           status := 500, detail := "", inst := "" } := by
      simp [ResponseWriter.Result, problemdetails.New, StatusText, StatusInternalServerError]
    exact ⟨rfl, fun h => absurd h hf, fun _ => ⟨hct, hbody⟩, fun _ => ⟨hct, hbody⟩⟩

/-- Witness of C1: the test handler `panicingHandler` under an XML config with the custom
type `unexpected-error`. -/
theorem NewWithConfig_problem_response_witness :
    (NewWithConfig sampleEnv panicingHandler
        { LogFunc := none, LogAllStack := false, ResponseFormat := XML,
          ProblemDetailsType := "unexpected-error" }
        sampleRequest freshWorld).1.w.Result.StatusCode = 500 ∧
    (NewWithConfig sampleEnv panicingHandler
        { LogFunc := none, LogAllStack := false, ResponseFormat := XML,
          ProblemDetailsType := "unexpected-error" }
        sampleRequest freshWorld).1.w.contentType = "application/problem+xml" ∧
    (NewWithConfig sampleEnv panicingHandler
        { LogFunc := none, LogAllStack := false, ResponseFormat := XML,
          ProblemDetailsType := "unexpected-error" }
        sampleRequest freshWorld).1.w.Result.Body =
      "<problem xmlns=\"urn:ietf:rfc:7807\"><type>unexpected-error</type><title>Internal Server Error</title><status>500</status><detail></detail><instance></instance></problem>" :=
  have h := NewWithConfig_problem_response sampleEnv
    { LogFunc := none, LogAllStack := false, ResponseFormat := XML,
      ProblemDetailsType := "unexpected-error" }
    panicingHandler sampleRequest freshWorld freshWorld (PanicValue.str "lorem ipsum")
    rfl (by decide) (by decide)
  ⟨h.1, (h.2.1 rfl).1, (h.2.1 rfl).2.trans rfl⟩

/-- C2: when the inner handler panics with `http.ErrAbortHandler`, the wrapping handler
panics again with that same value, and the response writer (headers, status, body), the
standard logger and the record of `LogFunc` calls are exactly as the inner handler left
them. -/
theorem NewWithConfig_abort_repanics (env : Env) (config : RecovererConfig)
    (next : Handler) (r : Request) (s0 s1 : World)
    (hnext : next r s0 = (s1, some (PanicValue.error ErrAbortHandler))) :
    (NewWithConfig env next config r s0).2 = some (PanicValue.error ErrAbortHandler) ∧
    (NewWithConfig env next config r s0).1.w = s1.w ∧
    (NewWithConfig env next config r s0).1.stdlog = s1.stdlog ∧
    (NewWithConfig env next config r s0).1.logFuncCalls = s1.logFuncCalls := by
  simp [NewWithConfig, hnext]

/-- Witness of C2: the test handler `panicingAbortHandler` under a config with a callback. -/
theorem NewWithConfig_abort_repanics_witness :
    (NewWithConfig sampleEnv panicingAbortHandler
        { LogFunc := some testLogFunc, LogAllStack := true, ResponseFormat := JSON,
          ProblemDetailsType := internalServerErrorType }
        sampleRequest freshWorld).2 = some (PanicValue.error ErrAbortHandler) ∧
    (NewWithConfig sampleEnv panicingAbortHandler
        { LogFunc := some testLogFunc, LogAllStack := true, ResponseFormat := JSON,
          ProblemDetailsType := internalServerErrorType }
        sampleRequest freshWorld).1 = freshWorld :=
  have h := NewWithConfig_abort_repanics sampleEnv
    { LogFunc := some testLogFunc, LogAllStack := true, ResponseFormat := JSON,
      ProblemDetailsType := internalServerErrorType }
    panicingAbortHandler sampleRequest freshWorld freshWorld rfl
  ⟨h.1, by decide⟩

/-- C3: when the inner handler panics with a value other than `http.ErrAbortHandler`, and
the configured `LogFunc` (if any) returns whenever it is called, `ServeHTTP` of the
wrapping handler returns normally: no panic reaches its caller. -/
theorem NewWithConfig_absorbs_panic (env : Env) (config : RecovererConfig)
    (next : Handler) (r : Request) (s0 s1 : World) (v : PanicValue)
    (hnext : next r s0 = (s1, some v))
    (hv : v ≠ PanicValue.error ErrAbortHandler)
    (hsink : ∀ f, config.LogFunc = some f → ∀ e st l, (f e st l).2 = none) :
    (NewWithConfig env next config r s0).2 = none := by
  simp only [NewWithConfig, hnext, if_neg hv]
  cases hlog : config.LogFunc with
  | none => rfl
  | some f => exact hsink f hlog _ _ _

/-- Witness of C3: `panicingHandler` under a config whose callback is the one of the tests. -/
theorem NewWithConfig_absorbs_panic_witness :
    (NewWithConfig sampleEnv panicingHandler
        { LogFunc := some testLogFunc, LogAllStack := true, ResponseFormat := JSON,
          ProblemDetailsType := internalServerErrorType }
        sampleRequest freshWorld).2 = none :=
  NewWithConfig_absorbs_panic sampleEnv
    { LogFunc := some testLogFunc, LogAllStack := true, ResponseFormat := JSON,
      ProblemDetailsType := internalServerErrorType }
    panicingHandler sampleRequest freshWorld freshWorld (PanicValue.str "lorem ipsum")
    rfl (by decide)
    (by intro f hf e st l; cases hf; rfl)

/-- C4: when the inner handler returns without panicking, the wrapping handler is that one
call of the inner handler on the original writer and request and nothing more: it returns
normally, and the response writer, the standard logger and the record of `LogFunc` calls
are exactly what the inner handler left. -/
theorem NewWithConfig_passthrough (env : Env) (config : RecovererConfig)
    (next : Handler) (r : Request) (s0 : World)
    (hret : (next r s0).2 = none) :
    NewWithConfig env next config r s0 = next r s0 ∧
    (NewWithConfig env next config r s0).2 = none ∧
    (NewWithConfig env next config r s0).1.w = (next r s0).1.w ∧
    (NewWithConfig env next config r s0).1.stdlog = (next r s0).1.stdlog ∧
    (NewWithConfig env next config r s0).1.logFuncCalls = (next r s0).1.logFuncCalls := by
  have key : NewWithConfig env next config r s0 = next r s0 := by
    rcases hn : next r s0 with ⟨s1, o⟩
    rw [hn] at hret
    simp only at hret
    subst hret
    simp [NewWithConfig, hn]
  rw [key]
  exact ⟨rfl, hret, rfl, rfl, rfl⟩

/-- Witness of C4: `helloHandler` answers 200 with its own body and nothing is logged. -/
theorem NewWithConfig_passthrough_witness :
    NewWithConfig sampleEnv helloHandler
        { LogFunc := some testLogFunc, LogAllStack := true, ResponseFormat := XML,
          ProblemDetailsType := "unexpected-error" }
        sampleRequest freshWorld = helloHandler sampleRequest freshWorld ∧
    (helloHandler sampleRequest freshWorld).1.w.Result =
      { StatusCode := 200, Header := ⟨[("Content-Type", ["text/plain"])]⟩, Body := "hello" } ∧
    (helloHandler sampleRequest freshWorld).1.stdlog = [] ∧
    (helloHandler sampleRequest freshWorld).1.logFuncCalls = [] :=
  ⟨(NewWithConfig_passthrough sampleEnv
      { LogFunc := some testLogFunc, LogAllStack := true, ResponseFormat := XML,
        ProblemDetailsType := "unexpected-error" }
      helloHandler sampleRequest freshWorld rfl).1, by decide, by decide, by decide⟩

/-- C5: with a `LogFunc` configured and a panic value other than `http.ErrAbortHandler`,
`LogFunc` is called exactly once (one call is added to the record) and the wrapping handler
itself prints nothing through the standard logger (the log is what the callback makes of
the log the inner handler left). The first argument is the normalized error: the panic
value itself when it is an error, otherwise an error whose message is the `%v` text of the
value (the string itself for a string). The second argument is the stack dump, which is
not empty, when `LogAllStack` is true, and empty when it is false. -/
theorem NewWithConfig_calls_LogFunc (env : Env) (config : RecovererConfig)
    (next : Handler) (r : Request) (s0 s1 : World) (v : PanicValue) (f : LogCallback)
    (hlog : config.LogFunc = some f)
    (hnext : next r s0 = (s1, some v))
    (hv : v ≠ PanicValue.error ErrAbortHandler) :
    ∃ err stack,
      (NewWithConfig env next config r s0).1.logFuncCalls
        = s1.logFuncCalls ++ [(err, stack)] ∧
      (NewWithConfig env next config r s0).1.stdlog = (f err stack s1.stdlog).1 ∧
      (NewWithConfig env next config r s0).2 = (f err stack s1.stdlog).2 ∧
      (∀ e, v = PanicValue.error e → err = e) ∧
      (∀ s, v = PanicValue.str s → err.Error = s) ∧
      (asError v = none → err.Error = formatV v) ∧
      (config.LogAllStack = true → stack = debugStack env ∧ stack ≠ "") ∧
      (config.LogAllStack = false → stack = "") := by
  simp only [NewWithConfig, hnext, if_neg hv, hlog]
  refine ⟨_, _, rfl, rfl, rfl, ?_, ?_, ?_, ?_, ?_⟩
  · intro e he
    subst he
    rfl
  · intro s hs
    subst hs
    rfl
  · intro hnone
    rw [hnone]
    rfl
  · intro hst
    rw [if_pos hst]
    exact ⟨rfl, debugStack_ne_empty env⟩
  · intro hst
    simp [hst]

/-- Witness of C5: the string panic of `panicingHandler` reaches the callback of the tests
once, as an error with message `lorem ipsum` and with an empty stack argument. -/
theorem NewWithConfig_calls_LogFunc_witness :
    (∃ err stack,
      (NewWithConfig sampleEnv panicingHandler
          { LogFunc := some testLogFunc, LogAllStack := false, ResponseFormat := JSON,
            ProblemDetailsType := internalServerErrorType }
          sampleRequest freshWorld).1.logFuncCalls = [] ++ [(err, stack)] ∧
      err.Error = "lorem ipsum" ∧ stack = "") ∧
    (NewWithConfig sampleEnv panicingHandler
        { LogFunc := some testLogFunc, LogAllStack := false, ResponseFormat := JSON,
          ProblemDetailsType := internalServerErrorType }
        sampleRequest freshWorld).1.stdlog = ["[LogFunc] test lorem ipsum\n"] :=
  have h := NewWithConfig_calls_LogFunc sampleEnv
    { LogFunc := some testLogFunc, LogAllStack := false, ResponseFormat := JSON,
      ProblemDetailsType := internalServerErrorType }
    panicingHandler sampleRequest freshWorld freshWorld (PanicValue.str "lorem ipsum")
    testLogFunc rfl rfl (by decide)
  ⟨h.elim fun err h1 => h1.elim fun stack h2 =>
      ⟨err, stack, h2.1, h2.2.2.2.2.1 "lorem ipsum" rfl, h2.2.2.2.2.2.2.2 rfl⟩,
    by decide⟩

/-- C6: with no `LogFunc` configured and a panic value other than `http.ErrAbortHandler`,
exactly one entry is added to the standard logger and no callback is called. The entry is
`[PANIC]: `, the message of the normalized error, a space, the stack dump (empty when
`LogAllStack` is false) and the newline that ends the entry; so the message of the
normalized error occurs in the entry. -/
theorem NewWithConfig_default_log (env : Env) (config : RecovererConfig)
    (next : Handler) (r : Request) (s0 s1 : World) (v : PanicValue)
    (hlog : config.LogFunc = none)
    (hnext : next r s0 = (s1, some v))
    (hv : v ≠ PanicValue.error ErrAbortHandler) :
    ∃ err stack,
      (NewWithConfig env next config r s0).1.stdlog
        = s1.stdlog ++ ["[PANIC]: " ++ err.Error ++ " " ++ stack ++ "\n"] ∧
      (NewWithConfig env next config r s0).1.logFuncCalls = s1.logFuncCalls ∧
      (∀ e, v = PanicValue.error e → err = e) ∧
      (∀ s, v = PanicValue.str s → err.Error = s) ∧
      (asError v = none → err.Error = formatV v) ∧
      (config.LogAllStack = true → stack = debugStack env) ∧
      (config.LogAllStack = false → stack = "") ∧
      err.Error.data <:+: ("[PANIC]: " ++ err.Error ++ " " ++ stack ++ "\n").data := by
  simp only [NewWithConfig, hnext, if_neg hv, hlog]
  refine ⟨_, _, rfl, trivial, ?_, ?_, ?_, ?_, ?_, ?_⟩
  · intro e he
    subst he
    rfl
  · intro s hs
    subst hs
    rfl
  · intro hnone
    rw [hnone]
    rfl
  · intro hst
    rw [if_pos hst]
  · intro hst
    simp [hst]
  · exact message_infix _ _

/-- Witness of C6: the test case `log_no_stack`. -/
theorem NewWithConfig_default_log_witness :
    (NewWithConfig sampleEnv panicingHandler
        { LogFunc := none, LogAllStack := false, ResponseFormat := JSON,
          ProblemDetailsType := internalServerErrorType }
        sampleRequest freshWorld).1.stdlog = ["[PANIC]: lorem ipsum \n"] :=
  (NewWithConfig_default_log sampleEnv
    { LogFunc := none, LogAllStack := false, ResponseFormat := JSON,
      ProblemDetailsType := internalServerErrorType }
    panicingHandler sampleRequest freshWorld freshWorld (PanicValue.str "lorem ipsum")
    rfl rfl (by decide)).elim fun err h1 => h1.elim fun stack h2 =>
      h2.1.trans (by rw [h2.2.2.2.1 "lorem ipsum" rfl, h2.2.2.2.2.2.2.1 rfl]; decide)

/-- Counterexample to C7: the clause that `New` answers every panic other than
`http.ErrAbortHandler` with status 500 and `application/problem+json` fails.
`committedHandler` panics with the string `lorem ipsum` after it sent status 200 with a
`text/plain` content type, and under `New` the client receives status 200 and
`text/plain`. -/
theorem New_response_clause_fails_after_commit :
    committedHandler sampleRequest freshWorld
      = ((committedHandler sampleRequest freshWorld).1,
          some (PanicValue.str "lorem ipsum")) ∧
    PanicValue.str "lorem ipsum" ≠ PanicValue.error ErrAbortHandler ∧
    (New sampleEnv committedHandler sampleRequest freshWorld).2 = none ∧
    (New sampleEnv committedHandler sampleRequest freshWorld).1.w.Result.StatusCode = 200 ∧
    (New sampleEnv committedHandler sampleRequest freshWorld).1.w.contentType
      = "text/plain" ∧
    ¬ (∀ (env : Env) (next : Handler) (r : Request) (s0 s1 : World) (v : PanicValue),
        next r s0 = (s1, some v) → v ≠ PanicValue.error ErrAbortHandler →
        (New env next r s0).1.w.Result.StatusCode = 500 ∧
        (New env next r s0).1.w.contentType = "application/problem+json") := by
  refine ⟨rfl, by decide, by decide, by decide, by decide, ?_⟩
  intro h
  have h500 := (h sampleEnv committedHandler sampleRequest freshWorld
    (committedHandler sampleRequest freshWorld).1 (PanicValue.str "lorem ipsum") rfl
    (by decide)).1
  exact absurd h500 (by decide)

/-- C7 as amended: `New next` is `NewWithConfig next c` for the config `c` with no
`LogFunc`, `LogAllStack` = true, format JSON and the RFC 7231 URL as type. In particular, on
a panic other than `http.ErrAbortHandler` it returns normally, sends the JSON content type,
status 500 and the JSON encoding of the payload with that URL as type through the writer,
prints one entry with the stack dump through the standard logger, and calls no callback;
when the inner handler had sent nothing before it panicked, the response has status 500,
content type `application/problem+json` and that JSON body. -/
theorem New_eq_NewWithConfig_default (env : Env) (next : Handler) :
    New env next = NewWithConfig env next
      { LogFunc := none, LogAllStack := true, ResponseFormat := JSON,
        ProblemDetailsType := "https://www.rfc-editor.org/rfc/rfc7231#section-6.6.1" } ∧
    ∀ (r : Request) (s0 s1 : World) (v : PanicValue),
      next r s0 = (s1, some v) → v ≠ PanicValue.error ErrAbortHandler →
      (New env next r s0).2 = none ∧
      (New env next r s0).1.w =
        ((s1.w.HeaderSet "Content-Type" "application/problem+json").WriteHeader 500).Write
          (env.jsonEncode
            { type := "https://www.rfc-editor.org/rfc/rfc7231#section-6.6.1",
              title := "Internal Server Error", status := 500, detail := "", inst := "" }) ∧
      (∃ err : GoError, (New env next r s0).1.stdlog
          = s1.stdlog ++ ["[PANIC]: " ++ err.Error ++ " " ++ debugStack env ++ "\n"] ∧
        (∀ e, v = PanicValue.error e → err = e) ∧
        (asError v = none → err.Error = formatV v)) ∧
      (New env next r s0).1.logFuncCalls = s1.logFuncCalls ∧
      (s1.w.unwritten →
        (New env next r s0).1.w.Result.StatusCode = 500 ∧
        (New env next r s0).1.w.contentType = "application/problem+json" ∧
        (New env next r s0).1.w.Result.Body = env.jsonEncode
          { type := "https://www.rfc-editor.org/rfc/rfc7231#section-6.6.1",
            title := "Internal Server Error", status := 500, detail := "", inst := "" }) := by
  refine ⟨rfl, ?_⟩
  intro r s0 s1 v hnext hv
  have hw := NewWithConfig_writer env defaultRecoverConfig next r s0 s1 v hnext hv
  have hfmt : ¬ defaultRecoverConfig.ResponseFormat = XML := by decide
  rw [if_neg hfmt] at hw
  refine ⟨?_, ?_, ?_, ?_, ?_⟩
  · simp [New, NewWithConfig, hnext, hv, defaultRecoverConfig]
  · exact hw
  · refine ⟨(match asError v with | some e => e | none => Errorf v), ?_, ?_, ?_⟩
    · simp [New, NewWithConfig, hnext, hv, defaultRecoverConfig]
    · intro e he
      subst he
      rfl
    · intro hnone
      rw [hnone]
      rfl
  · simp [New, NewWithConfig, hnext, hv, defaultRecoverConfig]
  · intro hu
    have h1 := NewWithConfig_writer env defaultRecoverConfig next r s0 s1 v hnext hv
    rw [if_neg hfmt, write_on_unwritten _ _ _ hu] at h1
    unfold New
    rw [h1]
    refine ⟨rfl, ?_, rfl⟩
    simp [ResponseWriter.contentType, ResponseWriter.Result, Header.Get_Set,
      contentTypeProblemJSON]

/-- Witness of amended C7: the test `TestNew`. -/
theorem New_eq_NewWithConfig_default_witness :
    (New sampleEnv panicingHandler sampleRequest freshWorld).2 = none ∧
    (New sampleEnv panicingHandler sampleRequest freshWorld).1.w.Result.StatusCode = 500 ∧
    (New sampleEnv panicingHandler sampleRequest freshWorld).1.w.contentType
      = "application/problem+json" ∧
    (New sampleEnv panicingHandler sampleRequest freshWorld).1.w.Result.Body =
      "\x7b\"type\":\"https://www.rfc-editor.org/rfc/rfc7231#section-6.6.1\",\"title\":\"Internal Server Error\",\"status\":500,\"detail\":\"\",\"instance\":\"\"\x7d\n" ∧
    (New sampleEnv panicingHandler sampleRequest freshWorld).1.stdlog =
      ["[PANIC]: lorem ipsum goroutine 7 [running]:\nmain.panicingHandler(...)\n\n"] :=
  have h := (New_eq_NewWithConfig_default sampleEnv panicingHandler).2
    sampleRequest freshWorld freshWorld (PanicValue.str "lorem ipsum") rfl (by decide)
  have hu := h.2.2.2.2 (by decide)
  ⟨h.1, hu.1, hu.2.1, hu.2.2.trans rfl, by decide⟩

/-- Counterexample to C8: under the zero config, whose `LogAllStack` is unset, the panic of
`panicingHandler` is logged without a stack dump, whereas `New` logs it with the stack
dump; the two handlers differ. -/
theorem zeroConfig_gets_no_defaults :
    (NewWithConfig sampleEnv panicingHandler zeroConfig sampleRequest freshWorld).1.stdlog
      = ["[PANIC]: lorem ipsum \n"] ∧
    (New sampleEnv panicingHandler sampleRequest freshWorld).1.stdlog
      = ["[PANIC]: lorem ipsum goroutine 7 [running]:\nmain.panicingHandler(...)\n\n"] ∧
    NewWithConfig sampleEnv panicingHandler zeroConfig sampleRequest freshWorld
      ≠ New sampleEnv panicingHandler sampleRequest freshWorld := by
  refine ⟨by decide, by decide, by decide⟩

/-- C8 as amended: `NewWithConfig` takes `LogAllStack` as given. With `LogAllStack` false
no stack dump is taken on a panic other than `http.ErrAbortHandler`: the default log entry
ends right after the message and the space, and a configured `LogFunc` receives an empty
stack. The documented defaults, `LogAllStack` true and the RFC URL as type, are the values
of the config that `New` passes. -/
theorem NewWithConfig_takes_LogAllStack_as_given :
    (defaultRecoverConfig.LogAllStack = true ∧
      defaultRecoverConfig.ProblemDetailsType
        = "https://www.rfc-editor.org/rfc/rfc7231#section-6.6.1" ∧
      ∀ env next, New env next = NewWithConfig env next defaultRecoverConfig) ∧
    ∀ (env : Env) (config : RecovererConfig) (next : Handler) (r : Request)
      (s0 s1 : World) (v : PanicValue),
      config.LogAllStack = false → next r s0 = (s1, some v) →
      v ≠ PanicValue.error ErrAbortHandler →
      (config.LogFunc = none →
        ∃ err : GoError, (NewWithConfig env next config r s0).1.stdlog
          = s1.stdlog ++ ["[PANIC]: " ++ err.Error ++ " " ++ "" ++ "\n"]) ∧
      (∀ f, config.LogFunc = some f →
        ∃ err : GoError, (NewWithConfig env next config r s0).1.logFuncCalls
          = s1.logFuncCalls ++ [(err, "")]) := by
  refine ⟨⟨rfl, rfl, fun _ _ => rfl⟩, ?_⟩
  intro env config next r s0 s1 v hst hnext hv
  refine ⟨fun hlog => ⟨(match asError v with | some e => e | none => Errorf v), ?_⟩,
    fun f hlog => ⟨(match asError v with | some e => e | none => Errorf v), ?_⟩⟩
  · simp only [NewWithConfig, hnext, if_neg hv, hlog, hst]
    rfl
  · simp only [NewWithConfig, hnext, if_neg hv, hlog, hst]
    rfl

/-- Witness of amended C8: the zero config on `panicingHandler`. -/
theorem NewWithConfig_takes_LogAllStack_as_given_witness :
    ∃ err : GoError, (NewWithConfig sampleEnv panicingHandler zeroConfig sampleRequest
        freshWorld).1.stdlog = [] ++ ["[PANIC]: " ++ err.Error ++ " " ++ "" ++ "\n"] :=
  (NewWithConfig_takes_LogAllStack_as_given.2 sampleEnv zeroConfig panicingHandler
    sampleRequest freshWorld freshWorld (PanicValue.str "lorem ipsum") rfl rfl
    (by decide)).1 rfl

/-- Counterexample to C9: `committedHandler` sends status 200, a `text/plain` content type
and the bytes `half` before it panics; the client then receives status 200, `text/plain`
and the payload appended to `half`, not a 500 problem response. -/
theorem committedHandler_response_stays_200 :
    (New sampleEnv committedHandler sampleRequest freshWorld).1.w.Result =
      { StatusCode := 200, Header := ⟨[("Content-Type", ["text/plain"])]⟩,
        Body := "half\x7b\"type\":\"https://www.rfc-editor.org/rfc/rfc7231#section-6.6.1\",\"title\":\"Internal Server Error\",\"status\":500,\"detail\":\"\",\"instance\":\"\"\x7d\n" } ∧
    (New sampleEnv committedHandler sampleRequest freshWorld).1.w.Result.StatusCode ≠ 500 ∧
    (New sampleEnv committedHandler sampleRequest freshWorld).1.w.contentType
      ≠ "application/problem+json" ∧
    (New sampleEnv committedHandler sampleRequest freshWorld).1.w.Result.Body ≠
      sampleEnv.jsonEncode
        { type := "https://www.rfc-editor.org/rfc/rfc7231#section-6.6.1",
          title := "Internal Server Error", status := 500, detail := "", inst := "" } := by
  refine ⟨rfl, by decide, by decide, by decide⟩

/-- C9 as amended: on a panic other than `http.ErrAbortHandler`, if the inner handler had
sent nothing, the client receives status 500, the problem content type of the configured
format and exactly the serialized payload; if the inner handler had already written the
header, the committed status and headers stay as they were and the serialized payload is
appended to the bytes already written. -/
theorem NewWithConfig_response_by_commit_state (env : Env) (config : RecovererConfig)
    (next : Handler) (r : Request) (s0 s1 : World) (v : PanicValue)
    (hnext : next r s0 = (s1, some v))
    (hv : v ≠ PanicValue.error ErrAbortHandler) :
    (s1.w.unwritten →
      (NewWithConfig env next config r s0).1.w.Result.StatusCode = 500 ∧
      (NewWithConfig env next config r s0).1.w.contentType =
        (if config.ResponseFormat = XML then "application/problem+xml"
         else "application/problem+json") ∧
      (NewWithConfig env next config r s0).1.w.Result.Body =
        (if config.ResponseFormat = XML then
          env.xmlEncode
            { type := config.ProblemDetailsType, title := "Internal Server Error",
              status := 500, detail := "", inst := "" }
         else
          env.jsonEncode
            { type := config.ProblemDetailsType, title := "Internal Server Error",
              status := 500, detail := "", inst := "" })) ∧
    (s1.w.wroteHeader = true →
      (NewWithConfig env next config r s0).1.w.Code = s1.w.Code ∧
      (NewWithConfig env next config r s0).1.w.snapHeader = s1.w.snapHeader ∧
      (NewWithConfig env next config r s0).1.w.Body = s1.w.Body ++
        (if config.ResponseFormat = XML then
          env.xmlEncode
            { type := config.ProblemDetailsType, title := "Internal Server Error",
              status := 500, detail := "", inst := "" }
         else
          env.jsonEncode
            { type := config.ProblemDetailsType, title := "Internal Server Error",
              status := 500, detail := "", inst := "" })) := by
  rw [NewWithConfig_writer env config next r s0 s1 v hnext hv]
  constructor
  · intro hu
    by_cases hf : config.ResponseFormat = XML
    · rw [if_pos hf, if_pos hf, if_pos hf, write_on_unwritten _ _ _ hu]
      refine ⟨rfl, ?_, rfl⟩
      simp [ResponseWriter.contentType, ResponseWriter.Result, Header.Get_Set,
        contentTypeProblemXML]
    · rw [if_neg hf, if_neg hf, if_neg hf, write_on_unwritten _ _ _ hu]
      refine ⟨rfl, ?_, rfl⟩
      simp [ResponseWriter.contentType, ResponseWriter.Result, Header.Get_Set,
        contentTypeProblemJSON]
  · intro hc
    by_cases hf : config.ResponseFormat = XML
    · rw [if_pos hf, if_pos hf, write_on_committed _ _ _ hc]
      exact ⟨rfl, rfl, rfl⟩
    · rw [if_neg hf, if_neg hf, write_on_committed _ _ _ hc]
      exact ⟨rfl, rfl, rfl⟩

/-- Witness of amended C9: the committed case on `committedHandler`, the unwritten case on
`panicingHandler`. -/
theorem NewWithConfig_response_by_commit_state_witness :
    (NewWithConfig sampleEnv committedHandler defaultRecoverConfig sampleRequest
        freshWorld).1.w.Code = 200 ∧
    (NewWithConfig sampleEnv panicingHandler defaultRecoverConfig sampleRequest
        freshWorld).1.w.Result.StatusCode = 500 :=
  ⟨((NewWithConfig_response_by_commit_state sampleEnv defaultRecoverConfig committedHandler
      sampleRequest freshWorld (committedHandler sampleRequest freshWorld).1
      (PanicValue.str "lorem ipsum") rfl (by decide)).2 (by decide)).1.trans (by decide),
   ((NewWithConfig_response_by_commit_state sampleEnv defaultRecoverConfig panicingHandler
      sampleRequest freshWorld freshWorld
      (PanicValue.str "lorem ipsum") rfl (by decide)).1 (by decide)).1⟩

/-- C10: the error response depends on the response format and the problem type only. For
two configs that agree on `ResponseFormat` and `ProblemDetailsType` (in particular for one
config), any two inner handlers, requests and starting worlds, and any two panic values
other than `http.ErrAbortHandler` raised before anything was sent, the two responses have
the same status, the same `Content-Type` and the same body. -/
theorem NewWithConfig_response_independent (env : Env) (c1 c2 : RecovererConfig)
    (next1 next2 : Handler) (r1 r2 : Request) (s01 s02 s11 s12 : World)
    (v1 v2 : PanicValue)
    (hfmt : c1.ResponseFormat = c2.ResponseFormat)
    (htype : c1.ProblemDetailsType = c2.ProblemDetailsType)
    (hnext1 : next1 r1 s01 = (s11, some v1))
    (hnext2 : next2 r2 s02 = (s12, some v2))
    (hv1 : v1 ≠ PanicValue.error ErrAbortHandler)
    (hv2 : v2 ≠ PanicValue.error ErrAbortHandler)
    (hw1 : s11.w.unwritten)
    (hw2 : s12.w.unwritten) :
    (NewWithConfig env next1 c1 r1 s01).1.w.Result.StatusCode
      = (NewWithConfig env next2 c2 r2 s02).1.w.Result.StatusCode ∧
    (NewWithConfig env next1 c1 r1 s01).1.w.contentType
      = (NewWithConfig env next2 c2 r2 s02).1.w.contentType ∧
    (NewWithConfig env next1 c1 r1 s01).1.w.Result.Body
      = (NewWithConfig env next2 c2 r2 s02).1.w.Result.Body := by
  rw [NewWithConfig_writer env c1 next1 r1 s01 s11 v1 hnext1 hv1,
    NewWithConfig_writer env c2 next2 r2 s02 s12 v2 hnext2 hv2, ← hfmt, ← htype]
  by_cases hf : c1.ResponseFormat = XML
  · rw [if_pos hf, if_pos hf, write_on_unwritten _ _ _ hw1, write_on_unwritten _ _ _ hw2]
    refine ⟨rfl, ?_, rfl⟩
    simp [ResponseWriter.contentType, ResponseWriter.Result, Header.Get_Set]
  · rw [if_neg hf, if_neg hf, write_on_unwritten _ _ _ hw1, write_on_unwritten _ _ _ hw2]
    refine ⟨rfl, ?_, rfl⟩
    simp [ResponseWriter.contentType, ResponseWriter.Result, Header.Get_Set]

/-- Witness of C10: a string panic on `GET /` and an error panic on `POST /items` under
the default config give the same status, content type and body. -/
theorem NewWithConfig_response_independent_witness :
    (NewWithConfig sampleEnv panicingHandler defaultRecoverConfig sampleRequest
        freshWorld).1.w.Result.StatusCode
      = (NewWithConfig sampleEnv panicingErrorHandler defaultRecoverConfig otherRequest
        freshWorld).1.w.Result.StatusCode ∧
    (NewWithConfig sampleEnv panicingHandler defaultRecoverConfig sampleRequest
        freshWorld).1.w.contentType
      = (NewWithConfig sampleEnv panicingErrorHandler defaultRecoverConfig otherRequest
        freshWorld).1.w.contentType ∧
    (NewWithConfig sampleEnv panicingHandler defaultRecoverConfig sampleRequest
        freshWorld).1.w.Result.Body
      = (NewWithConfig sampleEnv panicingErrorHandler defaultRecoverConfig otherRequest
        freshWorld).1.w.Result.Body :=
  NewWithConfig_response_independent sampleEnv defaultRecoverConfig defaultRecoverConfig
    panicingHandler panicingErrorHandler sampleRequest otherRequest freshWorld freshWorld
    freshWorld freshWorld (PanicValue.str "lorem ipsum")
    (PanicValue.error (GoError.value 1 "boom")) rfl rfl rfl rfl (by decide) (by decide)
    (by decide) (by decide)

end Recoverer
